import Mathlib

/-!
Verification development for the orbit-backend website generator
(src/server.js).  The embedding models the request handler
`app.post('/generate-website')` and the core function
`generateWebsiteWithDeepSeek`: JSON-block extraction from the model
reply, slug derivation, and the filesystem materialization steps.

Strings are modelled as `List Char`.  The external collaborators
(the OpenRouter HTTP call, the shell, the filesystem) are modelled by
oracle inputs (`ProviderOutcome`, `CmdOutcome`, `WriteOutcome`) packed
into a `World`; the embedded functions return the response value
together with the list of filesystem effects they perform.
-/

set_option maxHeartbeats 1000000

namespace Orbit

/-- JSON values as produced by `JSON.parse`.  Numeric literals keep their
source lexeme verbatim: no consumer in the modelled code inspects a
numeric value other than for truthiness, which is decidable from the
lexeme. -/
inductive Json where
  | null : Json
  | bool (b : Bool) : Json
  | num (lexeme : List Char) : Json
  | str (s : List Char) : Json
  | arr (elems : List Json) : Json
  | obj (fields : List (List Char × Json)) : Json

/-- JSON whitespace accepted by `JSON.parse`. -/
def jsonWs (c : Char) : Bool := c == ' ' || c == '\t' || c == '\n' || c == '\r'

def skipWs (s : List Char) : List Char := s.dropWhile jsonWs

def isDigitChar (c : Char) : Bool := 48 ≤ c.toNat && c.toNat ≤ 57

def hexVal (c : Char) : Option Nat :=
  if 48 ≤ c.toNat && c.toNat ≤ 57 then some (c.toNat - 48)
  else if 97 ≤ c.toNat && c.toNat ≤ 102 then some (c.toNat - 87)
  else if 65 ≤ c.toNat && c.toNat ≤ 70 then some (c.toNat - 55)
  else none

/-- Parse the body of a JSON string literal (the opening quote already
consumed); returns the decoded content and the rest of the input.
Surrogate pairs in consecutive \uXXXX escapes are not recombined; no
modelled input exercises them. -/
def parseStringBody : List Char → Option (List Char × List Char)
  | [] => none
  | c :: cs =>
    if c = '"' then some ([], cs)
    else if c = '\\' then
      match cs with
      | [] => none
      | e :: cs2 =>
        if e = '"' then (parseStringBody cs2).map fun p => ('"' :: p.1, p.2)
        else if e = '\\' then (parseStringBody cs2).map fun p => ('\\' :: p.1, p.2)
        else if e = '/' then (parseStringBody cs2).map fun p => ('/' :: p.1, p.2)
        else if e = 'b' then (parseStringBody cs2).map fun p => (Char.ofNat 8 :: p.1, p.2)
        else if e = 'f' then (parseStringBody cs2).map fun p => (Char.ofNat 12 :: p.1, p.2)
        else if e = 'n' then (parseStringBody cs2).map fun p => ('\n' :: p.1, p.2)
        else if e = 'r' then (parseStringBody cs2).map fun p => ('\r' :: p.1, p.2)
        else if e = 't' then (parseStringBody cs2).map fun p => ('\t' :: p.1, p.2)
        else if e = 'u' then
          match cs2 with
          | h1 :: h2 :: h3 :: h4 :: cs3 =>
            match hexVal h1, hexVal h2, hexVal h3, hexVal h4 with
            | some a, some b, some c3, some d4 =>
              (parseStringBody cs3).map fun p =>
                (Char.ofNat (((a * 16 + b) * 16 + c3) * 16 + d4) :: p.1, p.2)
            | _, _, _, _ => none
          | _ => none
        else none
    else if c.toNat < 32 then none
    else (parseStringBody cs).map fun p => (c :: p.1, p.2)

/-- Integer part of a JSON number: `0` or a nonzero digit followed by
digits. -/
def parseIntPart : List Char → Option (List Char × List Char)
  | [] => none
  | c :: cs =>
    if c = '0' then some (['0'], cs)
    else if isDigitChar c then
      some (c :: cs.takeWhile isDigitChar, cs.dropWhile isDigitChar)
    else none

/-- Optional fraction part of a JSON number. -/
def parseFrac : List Char → Option (List Char × List Char)
  | c :: cs =>
    if c = '.' then
      match cs.takeWhile isDigitChar with
      | [] => none
      | ds => some ('.' :: ds, cs.dropWhile isDigitChar)
    else some ([], c :: cs)
  | [] => some ([], [])

/-- Optional exponent part of a JSON number. -/
def parseExp : List Char → Option (List Char × List Char)
  | c :: cs =>
    if c = 'e' ∨ c = 'E' then
      match cs with
      | s2 :: cs2 =>
        if s2 = '+' ∨ s2 = '-' then
          match cs2.takeWhile isDigitChar with
          | [] => none
          | ds => some (c :: s2 :: ds, cs2.dropWhile isDigitChar)
        else
          match cs.takeWhile isDigitChar with
          | [] => none
          | ds => some (c :: ds, cs.dropWhile isDigitChar)
      | [] => none
    else some ([], c :: cs)
  | [] => some ([], [])

/-- A JSON number literal; the lexeme is returned verbatim. -/
def parseNumber (s : List Char) : Option (List Char × List Char) :=
  let p := match s with
    | c :: rest => if c = '-' then (['-'], rest) else ([], s)
    | [] => ([], s)
  match parseIntPart p.2 with
  | none => none
  | some (ip, s2) =>
    match parseFrac s2 with
    | none => none
    | some (fp, s3) =>
      match parseExp s3 with
      | none => none
      | some (ep, s4) => some (p.1 ++ ip ++ fp ++ ep, s4)

mutual

/-- Recursive-descent JSON value parser, with fuel for termination. -/
def parseVal : Nat → List Char → Option (Json × List Char)
  | 0, _ => none
  | Nat.succ fuel, s =>
    match skipWs s with
    | [] => none
    | c :: cs =>
      if c = 'n' then
        match cs with
        | 'u' :: 'l' :: 'l' :: r => some (Json.null, r)
        | _ => none
      else if c = 't' then
        match cs with
        | 'r' :: 'u' :: 'e' :: r => some (Json.bool true, r)
        | _ => none
      else if c = 'f' then
        match cs with
        | 'a' :: 'l' :: 's' :: 'e' :: r => some (Json.bool false, r)
        | _ => none
      else if c = '"' then
        match parseStringBody cs with
        | some (b, r) => some (Json.str b, r)
        | none => none
      else if c = '[' then parseArrBody fuel (skipWs cs)
      else if c.toNat = 123 then parseObjBody fuel (skipWs cs)
      else if c = '-' ∨ isDigitChar c then
        match parseNumber (c :: cs) with
        | some (lx, r) => some (Json.num lx, r)
        | none => none
      else none

/-- Array contents, positioned right after the opening bracket and any
whitespace. -/
def parseArrBody : Nat → List Char → Option (Json × List Char)
  | 0, _ => none
  | Nat.succ fuel, s =>
    match s with
    | [] => none
    | c :: r =>
      if c = ']' then some (Json.arr [], r)
      else
        match parseVal fuel (c :: r) with
        | some (v, r2) => parseArrRest fuel r2 [v]
        | none => none

/-- Remaining array elements after at least one has been parsed
(accumulated in reverse). -/
def parseArrRest : Nat → List Char → List Json → Option (Json × List Char)
  | 0, _, _ => none
  | Nat.succ fuel, s, acc =>
    match skipWs s with
    | [] => none
    | c :: r =>
      if c = ']' then some (Json.arr acc.reverse, r)
      else if c = ',' then
        match parseVal fuel r with
        | some (v, r2) => parseArrRest fuel r2 (v :: acc)
        | none => none
      else none

/-- Object contents, positioned right after the opening brace and any
whitespace. -/
def parseObjBody : Nat → List Char → Option (Json × List Char)
  | 0, _ => none
  | Nat.succ fuel, s =>
    match s with
    | [] => none
    | c :: r =>
      if c.toNat = 125 then some (Json.obj [], r)
      else
        match parseMember fuel (c :: r) with
        | some (kv, r2) => parseObjRest fuel r2 [kv]
        | none => none

/-- One `"key": value` object member. -/
def parseMember : Nat → List Char → Option ((List Char × Json) × List Char)
  | 0, _ => none
  | Nat.succ fuel, s =>
    match skipWs s with
    | [] => none
    | c :: r =>
      if c = '"' then
        match parseStringBody r with
        | some (k, r2) =>
          match skipWs r2 with
          | [] => none
          | d :: r3 =>
            if d = ':' then
              match parseVal fuel r3 with
              | some (v, r4) => some ((k, v), r4)
              | none => none
            else none
        | none => none
      else none

/-- Remaining object members after at least one has been parsed
(accumulated in reverse). -/
def parseObjRest : Nat → List Char → List (List Char × Json) →
    Option (Json × List Char)
  | 0, _, _ => none
  | Nat.succ fuel, s, acc =>
    match skipWs s with
    | [] => none
    | c :: r =>
      if c.toNat = 125 then some (Json.obj acc.reverse, r)
      else if c = ',' then
        match parseMember fuel r with
        | some (kv, r2) => parseObjRest fuel r2 (kv :: acc)
        | none => none
      else none

end

/-- Model of `JSON.parse`: a single JSON value, allowing surrounding
whitespace, with nothing after it.  The fuel `2 * length + 2` exceeds the
maximal recursion depth (at most two recursive calls ever happen per
consumed character). -/
def parseJson (s : List Char) : Option Json :=
  match parseVal (2 * s.length + 2) s with
  | some (v, rest) => if skipWs rest = [] then some v else none
  | none => none

/-- Property lookup on a parsed JSON object: with duplicate keys,
`JSON.parse` keeps the last occurrence. -/
def lookupLast (fields : List (List Char × Json)) (key : List Char) :
    Option Json :=
  match fields with
  | [] => none
  | (k, v) :: rest =>
    match lookupLast rest key with
    | some w => some w
    | none => if k = key then some v else none

/-- JavaScript property access `o.key` on a parsed JSON value other than
`null` (property access on `null` throws and is handled separately):
objects yield the member, every other value yields `undefined`
(modelled as `none`). -/
def jsonGet : Json → List Char → Option Json
  | Json.obj fields, key => lookupLast fields key
  | _, _ => none

/-- Whether a JSON number lexeme denotes zero: every digit of the
mantissa (the part before any exponent) is `0`. -/
def numIsZero (lexeme : List Char) : Bool :=
  (lexeme.takeWhile fun c => !(c == 'e' || c == 'E')).all
    fun c => !isDigitChar c || c == '0'

/-- JavaScript truthiness of a parsed JSON value. -/
def jsTruthy : Json → Bool
  | Json.null => false
  | Json.bool b => b
  | Json.num lx => !numIsZero lx
  | Json.str s => !s.isEmpty
  | Json.arr _ => true
  | Json.obj _ => true

/-- The idiom `v || ''` applied to a (possibly undefined) property
value. -/
def jsOrEmpty (v : Option Json) : Json :=
  match v with
  | some j => if jsTruthy j then j else Json.str []
  | none => Json.str []

/-- Whether `pat` is a prefix of `s`. -/
def startsWith : List Char → List Char → Bool
  | [], _ => true
  | _ :: _, [] => false
  | p :: ps, c :: cs => p == c && startsWith ps cs

/-- Index of the first occurrence of `pat` as a contiguous substring of
`s`. -/
def findSubIdx (pat : List Char) : List Char → Option Nat
  | [] => if startsWith pat [] then some 0 else none
  | c :: cs =>
    if startsWith pat (c :: cs) then some 0
    else (findSubIdx pat cs).map (· + 1)

/-- Whether `pat` occurs as a contiguous substring of `s`. -/
def containsSub (pat s : List Char) : Bool := (findSubIdx pat s).isSome

/-- The opening fence of the extraction pattern. -/
def openMarker : List Char := "```json\n".data

/-- The closing fence of the extraction pattern. -/
def closeMarker : List Char := "\n```".data

/-- Model of `rawContent.match(/\x60\x60\x60json\n([\s\S]*?)\n\x60\x60\x60/)`:
the regex engine matches at the leftmost position where the opening
marker occurs and some closing marker follows, and the lazy group
captures up to the first subsequent closing marker.  (If the first
opening marker has no closing marker after it, no later one has either,
so the whole match fails.)  Returns the captured group. -/
def jsonBlockMatch (raw : List Char) : Option (List Char) :=
  match findSubIdx openMarker raw with
  | none => none
  | some i =>
    let rest := raw.drop (i + openMarker.length)
    match findSubIdx closeMarker rest with
    | none => none
    | some k => some (rest.take k)

/-- The 200-character diagnostic excerpt
`rawContent.substring(0, 200)`. -/
def excerpt (rawContent : List Char) : List Char := rawContent.take 200

/-- Error message of the branch that did not find the fenced block. -/
def blockNotFoundMsg (rawContent : List Char) : List Char :=
  "AI response format error: JSON block not found in model\x27s output. Raw content: ".data
    ++ excerpt rawContent ++ "...".data

/-- Error message of the branch whose fenced block failed to parse. -/
def parseFailedMsg (rawContent : List Char) : List Char :=
  "AI response format error: Could not parse JSON from model. Raw content: ".data
    ++ excerpt rawContent ++ "...".data

/-- Result of the extraction step (lines 119-128 of src/server.js):
either the three artifact values, or one of the two error messages. -/
inductive ExtractResult where
  | ok (htmlContent cssContent jsContent : Json)
  | blockNotFound (message : List Char)
  | parseFailed (message : List Char)

/-- The extraction step: find the fenced JSON block, check the captured
group is truthy (a non-empty string), parse it, and read the three
fields with the `|| ''` default.  Property access on a parsed `null`
throws and lands in the same catch as a parse error. -/
def extract (rawContent : List Char) : ExtractResult :=
  match jsonBlockMatch rawContent with
  | none => .blockNotFound (blockNotFoundMsg rawContent)
  | some g =>
    if g = [] then .blockNotFound (blockNotFoundMsg rawContent)
    else
      match parseJson g with
      | none => .parseFailed (parseFailedMsg rawContent)
      | some Json.null => .parseFailed (parseFailedMsg rawContent)
      | some parsed =>
        .ok (jsOrEmpty (jsonGet parsed "html".data))
          (jsOrEmpty (jsonGet parsed "css".data))
          (jsOrEmpty (jsonGet parsed "js".data))

/-- Characters kept by the slug replacement: `[a-z0-9]`. -/
def isSlugChar (c : Char) : Bool :=
  (97 ≤ c.toNat && c.toNat ≤ 122) || (48 ≤ c.toNat && c.toNat ≤ 57)

/-- `toLowerCase` on the ASCII range (every character appearing in the
modelled inputs is ASCII; characters outside `A`-`Z` are returned
unchanged). -/
def jsToLower (c : Char) : Char :=
  if 65 ≤ c.toNat && c.toNat ≤ 90 then Char.ofNat (c.toNat + 32) else c

/-- Model of `.replace(/[^a-z0-9]+/g, '-')`: each maximal run of
characters outside `[a-z0-9]` becomes a single `-`.  The flag records
whether we are inside such a run with its `-` still to be emitted. -/
def collapseGo : Bool → List Char → List Char
  | pending, [] => if pending then ['-'] else []
  | pending, c :: cs =>
    if isSlugChar c then
      if pending then '-' :: c :: collapseGo false cs
      else c :: collapseGo false cs
    else collapseGo true cs

def isDash (c : Char) : Bool := c == '-'

/-- Model of `.replace(/^-*|-*$/g, '')`: strip leading and trailing
dashes. -/
def trimDashes (l : List Char) : List Char :=
  ((l.dropWhile isDash).reverse.dropWhile isDash).reverse

/-- The slug chain of line 131:
`userProblem.toLowerCase().replace(/[^a-z0-9]+/g, '-').replace(/^-*|-*$/g, '')`. -/
def slugify (s : List Char) : List Char :=
  trimDashes (collapseGo false (s.map jsToLower))

/-- The fallback folder name used when the slug is empty. -/
def slugFallback : List Char := "generated-website".data

/-- `const folderName = userProblem...replace(...) || 'generated-website'`. -/
def folderName (userProblem : List Char) : List Char :=
  if slugify userProblem = [] then slugFallback else slugify userProblem

/-- The fixed base directory of generated projects. -/
def basePath : List Char := "./generated_websites/".data

/-- `const projectPath = ./generated_websites/(folderName)`. -/
def projectPath (userProblem : List Char) : List Char :=
  basePath ++ folderName userProblem

/-- Outcome of running a shell command through `asyncExecute`:
stdout on success, stderr if the command succeeded but wrote to stderr,
or the error message if the execution rejected. -/
inductive CmdOutcome where
  | out (stdout : List Char)
  | errOutput (stderr : List Char)
  | failed (msg : List Char)

/-- `executeCommand` (lines 26-38): every failure is caught and encoded
into the returned string; nothing is thrown. -/
def executeCommand (outcome : CmdOutcome) : List Char :=
  match outcome with
  | .errOutput stderr => "❌ Warning/Error: ".data ++ stderr
  | .out stdout =>
    "✅ Success: ".data ++
      (if stdout = [] then "Command executed successfully.".data else stdout)
  | .failed msg => "❌ Error: ".data ++ msg

/-- Outcome of one `fs.mkdir` + `fs.writeFile` pair inside
`writeFileContent`. -/
inductive WriteOutcome where
  | ok
  | failed (msg : List Char)

/-- `writeFileContent` (lines 40-52): every failure is caught and
encoded into the returned string carrying the target path and the
underlying error message; nothing is thrown. -/
def writeFileContent (filePath : List Char) (outcome : WriteOutcome) :
    List Char :=
  match outcome with
  | .ok => "✅ File \"".data ++ filePath ++ "\" written successfully.".data
  | .failed msg =>
    "❌ Error writing to \"".data ++ filePath ++ "\": ".data ++ msg

/-- Outcome of the OpenRouter fetch: a reply content string, a non-ok
HTTP status together with the stringified error body, or a thrown
error (network failure, or a malformed reply making
`data.choices[0].message.content` throw). -/
inductive ProviderOutcome where
  | ok (content : List Char)
  | httpError (status : Nat) (errorBody : List Char)
  | exn (msg : List Char)

/-- Oracle for the external collaborators of one request: the provider
call, the `mkdir` shell command, and each file write (keyed by target
path). -/
structure World where
  provider : ProviderOutcome
  mkdirOutcome : CmdOutcome
  writeOutcome : List Char → WriteOutcome

/-- One filesystem effect performed by the request. -/
inductive FsEvent where
  | cmd (command : List Char) (outcome : CmdOutcome)
  | write (filePath : List Char) (content : Json) (outcome : WriteOutcome)

/-- The value returned by `generateWebsiteWithDeepSeek`: either the
success object carrying the three artifacts, or the error object. -/
inductive GenResult where
  | success (message : List Char) (html css js : Json)
  | error (message : List Char)

/-- The `status` field of the returned object. -/
def statusOf : GenResult → List Char
  | .success _ _ _ _ => "success".data
  | .error _ => "error".data

/-- Message thrown on a non-ok provider response (line 111). -/
def deepSeekErrorMsg (status : Nat) (errorBody : List Char) : List Char :=
  "DeepSeek API error (".data ++ (Nat.repr status).data ++ "): ".data
    ++ errorBody

/-- Message of the outer catch (line 171). -/
def genFailureMsg (m : List Char) : List Char :=
  "Error during AI generation: ".data ++ m

/-- The success message (line 154). -/
def successMsg : List Char :=
  "Website code generated and files created successfully!".data

def indexFile : List Char := "/index.html".data
def styleFile : List Char := "/style.css".data
def scriptFile : List Char := "/script.js".data

/-- `generateWebsiteWithDeepSeek` (lines 60-173): call the provider,
extract the fenced JSON block, derive the folder, run `mkdir`, write
`index.html` and `style.css` unconditionally and `script.js` when the
script artifact is truthy (the results of all filesystem steps are
discarded), and return the response object.  The returned list records
the filesystem effects in order. -/
def generateWebsiteWithDeepSeek (w : World) (userProblem : List Char) :
    GenResult × List FsEvent :=
  match w.provider with
  | .httpError status body =>
    (.error (genFailureMsg (deepSeekErrorMsg status body)), [])
  | .exn m => (.error (genFailureMsg m), [])
  | .ok rawContent =>
    match extract rawContent with
    | .blockNotFound m => (.error m, [])
    | .parseFailed m => (.error m, [])
    | .ok htmlContent cssContent jsContent =>
      let pp := projectPath userProblem
      (.success successMsg htmlContent cssContent jsContent,
        [FsEvent.cmd ("mkdir ".data ++ pp) w.mkdirOutcome,
         FsEvent.write (pp ++ indexFile) htmlContent
           (w.writeOutcome (pp ++ indexFile)),
         FsEvent.write (pp ++ styleFile) cssContent
           (w.writeOutcome (pp ++ styleFile))]
        ++ (if jsTruthy jsContent then
              [FsEvent.write (pp ++ scriptFile) jsContent
                (w.writeOutcome (pp ++ scriptFile))]
            else []))

/-- The composed prompt of line 195; a missing `theme` renders as the
text `undefined` inside the template literal. -/
def mkUserProblem (prompt : List Char) (theme : Option (List Char)) :
    List Char :=
  "Create a website for the following description: \"".data ++ prompt
    ++ "\". Use a \"".data
    ++ (match theme with | some t => t | none => "undefined".data)
    ++ "\" theme. Ensure all necessary HTML, CSS, and JavaScript code is provided in the final structured JSON response.".data

/-- An HTTP response of the handler: status code and JSON body. -/
structure HttpResponse where
  statusCode : Nat
  body : GenResult

/-- The `/generate-website` handler (lines 187-205): reject a missing or
empty prompt with 400, otherwise compose the prompt, run the generator
and return its result with status 200. -/
def handleGenerateWebsite (w : World) (prompt : Option (List Char))
    (theme : Option (List Char)) : HttpResponse × List FsEvent :=
  match prompt with
  | none => (⟨400, .error "Prompt is required.".data⟩, [])
  | some p =>
    if p = [] then (⟨400, .error "Prompt is required.".data⟩, [])
    else
      let r := generateWebsiteWithDeepSeek w (mkUserProblem p theme)
      (⟨200, r.1⟩, r.2)

/-- Whether some write to `path` appears among the events. -/
def attemptedWrite (events : List FsEvent) (path : List Char) : Bool :=
  events.any fun e =>
    match e with
    | .write p _ _ => p == path
    | _ => false

/-- Whether a successful write to `path` appears among the events. -/
def fileWritten (events : List FsEvent) (path : List Char) : Bool :=
  events.any fun e =>
    match e with
    | .write p _ WriteOutcome.ok => p == path
    | _ => false

/-! Helper lemmas about the slug derivation. -/

/-- Adjacent characters are never both dashes. -/
def okPair (a b : Char) : Prop := ¬(a = '-' ∧ b = '-')

/-- No two adjacent dashes anywhere in the list. -/
def NoDD (l : List Char) : Prop := List.Chain' okPair l

lemma isSlugChar_ne_dash {c : Char} (h : isSlugChar c = true) : c ≠ '-' := by
  intro hEq
  subst hEq
  revert h
  decide

lemma mem_collapseGo :
    ∀ (l : List Char) (p : Bool) (c : Char),
      c ∈ collapseGo p l → isSlugChar c = true ∨ c = '-' := by
  intro l
  induction l with
  | nil =>
    intro p c hc
    cases p with
    | false => simp [collapseGo] at hc
    | true =>
      simp [collapseGo] at hc
      exact Or.inr hc
  | cons a t ih =>
    intro p c hc
    by_cases ha : isSlugChar a = true
    · cases p with
      | false =>
        simp only [collapseGo, ha, if_true, if_false, Bool.false_eq_true,
          List.mem_cons] at hc
        rcases hc with rfl | hc
        · exact Or.inl ha
        · exact ih false c hc
      | true =>
        simp only [collapseGo, ha, if_true, List.mem_cons] at hc
        rcases hc with rfl | rfl | hc
        · exact Or.inr rfl
        · exact Or.inl ha
        · exact ih false c hc
    · simp only [collapseGo, ha, if_false, Bool.false_eq_true] at hc
      exact ih true c hc

lemma noDD_cons {c : Char} {l : List Char} (hc : c ≠ '-') (hl : NoDD l) :
    NoDD (c :: l) := by
  refine List.chain'_cons'.mpr ⟨?_, hl⟩
  intro y _
  exact fun hab => hc hab.1

lemma noDD_collapseGo : ∀ (l : List Char) (p : Bool), NoDD (collapseGo p l) := by
  intro l
  induction l with
  | nil =>
    intro p
    cases p with
    | false => exact List.chain'_nil
    | true => exact List.chain'_singleton '-'
  | cons a t ih =>
    intro p
    by_cases ha : isSlugChar a = true
    · cases p with
      | false =>
        simp only [collapseGo, ha, if_true, if_false, Bool.false_eq_true]
        exact noDD_cons (isSlugChar_ne_dash ha) (ih false)
      | true =>
        simp only [collapseGo, ha, if_true]
        refine List.chain'_cons'.mpr ⟨?_, noDD_cons (isSlugChar_ne_dash ha) (ih false)⟩
        intro y hy
        simp at hy
        subst hy
        exact fun hab => isSlugChar_ne_dash ha hab.2
    · simp only [collapseGo, ha, if_false, Bool.false_eq_true]
      exact ih true

/-- The head of the list is in `[a-z0-9]` (vacuous for the empty list). -/
def headSlug : List Char → Prop
  | [] => True
  | c :: _ => isSlugChar c = true

/-- On a list whose characters are already slug characters separated by
single dashes, the run-collapsing replacement is the identity. -/
lemma collapseGo_canon :
    ∀ l : List Char, (∀ c ∈ l, isSlugChar c = true ∨ c = '-') → NoDD l →
      collapseGo false l = l ∧ (headSlug l → collapseGo true l = '-' :: l) := by
  intro l
  induction l with
  | nil => exact fun _ _ => ⟨rfl, fun _ => rfl⟩
  | cons a t ih =>
    intro hall hdd
    have ht_all : ∀ c ∈ t, isSlugChar c = true ∨ c = '-' :=
      fun c hc => hall c (List.mem_cons_of_mem _ hc)
    have ht_dd : NoDD t := hdd.tail
    obtain ⟨ih1, ih2⟩ := ih ht_all ht_dd
    constructor
    · by_cases ha : isSlugChar a = true
      · simp only [collapseGo, ha, if_true, if_false, Bool.false_eq_true, ih1]
      · have haDash : a = '-' := by
          rcases hall a (List.mem_cons_self a t) with h | h
          · exact absurd h ha
          · exact h
        simp only [collapseGo, ha, if_false, Bool.false_eq_true]
        have hhs : headSlug t := by
          cases t with
          | nil => trivial
          | cons b t2 =>
            have hok : okPair a b := (List.chain'_cons.mp hdd).1
            rcases ht_all b (List.mem_cons_self b t2) with h | h
            · exact h
            · exact absurd ⟨haDash, h⟩ hok
        rw [ih2 hhs, haDash]
    · intro hhs
      have ha : isSlugChar a = true := hhs
      simp only [collapseGo, ha, if_true, ih1]

/-- On input without any slug character, collapsing yields at most one
dash. -/
lemma collapseGo_nonslug :
    ∀ l : List Char, (∀ c ∈ l, isSlugChar c = false) → ∀ p : Bool,
      collapseGo p l = if p ∨ l ≠ [] then ['-'] else [] := by
  intro l
  induction l with
  | nil =>
    intro _ p
    cases p <;> simp [collapseGo]
  | cons a t ih =>
    intro hall p
    have ha : isSlugChar a = false := hall a (List.mem_cons_self a t)
    have ht : ∀ c ∈ t, isSlugChar c = false :=
      fun c hc => hall c (List.mem_cons_of_mem _ hc)
    simp only [collapseGo, ha, if_false, Bool.false_eq_true, ih ht true]
    simp

lemma dropWhile_head_false {p : Char → Bool} :
    ∀ (l : List Char) (c : Char) (r : List Char),
      List.dropWhile p l = c :: r → p c = false := by
  intro l
  induction l with
  | nil => intro c r h; cases h
  | cons a t ih =>
    intro c r h
    rw [List.dropWhile_cons] at h
    by_cases pa : p a = true
    · rw [if_pos pa] at h
      exact ih c r h
    · rw [if_neg pa] at h
      cases h
      exact Bool.eq_false_iff.mpr pa

lemma noDD_reverse {l : List Char} (h : NoDD l) : NoDD l.reverse := by
  refine List.chain'_reverse.mpr ?_
  exact h.imp fun a b hab => fun hc => hab ⟨hc.2, hc.1⟩

lemma trimDashes_subset {l : List Char} {c : Char} (h : c ∈ trimDashes l) :
    c ∈ l := by
  unfold trimDashes at h
  rw [List.mem_reverse] at h
  have h2 := (List.dropWhile_sublist isDash).subset h
  rw [List.mem_reverse] at h2
  exact (List.dropWhile_sublist isDash).subset h2

lemma trimDashes_noDD {l : List Char} (h : NoDD l) : NoDD (trimDashes l) := by
  unfold trimDashes
  exact noDD_reverse (((noDD_reverse (h.suffix (List.dropWhile_suffix isDash))).suffix
    (List.dropWhile_suffix isDash)))

/-- The trimmed list is a prefix of the leading-dash-stripped list. -/
lemma trimDashes_prefix (l : List Char) :
    trimDashes l <+: l.dropWhile isDash := by
  unfold trimDashes
  have h : ((l.dropWhile isDash).reverse.dropWhile isDash) <:+ (l.dropWhile isDash).reverse :=
    List.dropWhile_suffix isDash
  have h2 := List.reverse_prefix.mpr h
  rwa [List.reverse_reverse] at h2

lemma trimDashes_head {l : List Char} {c : Char} {r : List Char}
    (h : trimDashes l = c :: r) : isDash c = false := by
  obtain ⟨t, ht⟩ := trimDashes_prefix l
  rw [h] at ht
  exact dropWhile_head_false l c (r ++ t) ht.symm

lemma trimDashes_last {l : List Char} {c : Char} {r : List Char}
    (h : (trimDashes l).reverse = c :: r) : isDash c = false := by
  unfold trimDashes at h
  rw [List.reverse_reverse] at h
  exact dropWhile_head_false _ c r h

lemma trimDashes_eq_self {l : List Char}
    (hh : ∀ c r, l = c :: r → isDash c = false)
    (hl : ∀ c r, l.reverse = c :: r → isDash c = false) :
    trimDashes l = l := by
  have h1 : l.dropWhile isDash = l := by
    cases hc : l with
    | nil => rfl
    | cons c r => rw [List.dropWhile_cons, if_neg (by rw [hh c r hc]; simp)]
  have h2 : l.reverse.dropWhile isDash = l.reverse := by
    cases hc : l.reverse with
    | nil => rfl
    | cons c r => rw [List.dropWhile_cons, if_neg (by rw [hl c r hc]; simp)]
  unfold trimDashes
  rw [h1, h2, List.reverse_reverse]

lemma jsToLower_fixed {c : Char} (h : isSlugChar c = true ∨ c = '-') :
    jsToLower c = c := by
  rcases h with h | rfl
  · unfold jsToLower
    rw [if_neg]
    simp only [isSlugChar, Bool.or_eq_true, Bool.and_eq_true, decide_eq_true_eq] at h
    simp only [Bool.and_eq_true, decide_eq_true_eq, not_and]
    omega
  · decide

lemma map_jsToLower_fixed {l : List Char}
    (h : ∀ c ∈ l, isSlugChar c = true ∨ c = '-') :
    l.map jsToLower = l := by
  have := List.map_congr_left (f := jsToLower) (g := id)
    (fun a ha => jsToLower_fixed (h a ha))
  rwa [List.map_id] at this

lemma slugify_charset {s : List Char} :
    ∀ c ∈ slugify s, isSlugChar c = true ∨ c = '-' :=
  fun c hc => mem_collapseGo _ false c (trimDashes_subset hc)

lemma slugify_noDD (s : List Char) : NoDD (slugify s) :=
  trimDashes_noDD (noDD_collapseGo _ false)

lemma slugify_idem (s : List Char) : slugify (slugify s) = slugify s := by
  have hchar : ∀ c ∈ slugify s, isSlugChar c = true ∨ c = '-' := slugify_charset
  have hdd : NoDD (slugify s) := slugify_noDD s
  have hmap : (slugify s).map jsToLower = slugify s := map_jsToLower_fixed hchar
  have hcoll : collapseGo false (slugify s) = slugify s :=
    (collapseGo_canon _ hchar hdd).1
  have htrim : trimDashes (slugify s) = slugify s := by
    refine trimDashes_eq_self ?_ ?_
    · intro c r hc
      unfold slugify at hc
      exact trimDashes_head hc
    · intro c r hc
      unfold slugify at hc
      exact trimDashes_last hc
  show trimDashes (collapseGo false ((slugify s).map jsToLower)) = slugify s
  rw [hmap, hcoll, htrim]

/-! Helper lemmas about substring containment. -/

lemma startsWith_self_append : ∀ pat post : List Char,
    startsWith pat (pat ++ post) = true := by
  intro pat
  induction pat with
  | nil => intro post; rfl
  | cons c cs ih =>
    intro post
    show (c == c && startsWith cs (cs ++ post)) = true
    rw [beq_self_eq_true, ih post]
    rfl

lemma containsSub_head (pat post : List Char) :
    containsSub pat (pat ++ post) = true := by
  have hs := startsWith_self_append pat post
  unfold containsSub
  cases hpp : pat ++ post with
  | nil =>
    rw [hpp] at hs
    simp [findSubIdx, hs]
  | cons c cs =>
    rw [hpp] at hs
    simp [findSubIdx, hs]

lemma containsSub_prepend : ∀ (pre s pat : List Char),
    containsSub pat s = true → containsSub pat (pre ++ s) = true := by
  intro pre
  induction pre with
  | nil => intro s pat h; exact h
  | cons a t ih =>
    intro s pat h
    unfold containsSub findSubIdx
    by_cases hw : startsWith pat (a :: (t ++ s)) = true
    · simp [hw]
    · simp only [List.cons_append, hw, if_false, Bool.false_eq_true]
      have h2 : (findSubIdx pat (t ++ s)).isSome = true := ih s pat h
      cases hfs : findSubIdx pat (t ++ s) with
      | none => rw [hfs] at h2; cases h2
      | some k => rfl

/-! Concrete scenarios used by the end-to-end theorems. -/

/-- The provider reply of end-to-end scenario A of section 8 of the
spec. -/
def scenarioAReply : List Char :=
  "```json\n\x7b\"html\":\"<h1>Hi</h1>\",\"css\":\"h1\x7bcolor:red\x7d\",\"js\":\"\"\x7d\n```".data

def scenarioAPrompt : List Char := "a red button page".data

def scenarioATheme : List Char := "minimal".data

/-- The folder actually derived in scenario A: the slug of the whole
composed prompt, not of the description alone. -/
def scenarioASlug : List Char :=
  "create-a-website-for-the-following-description-a-red-button-page-use-a-minimal-theme-ensure-all-necessary-html-css-and-javascript-code-is-provided-in-the-final-structured-json-response".data

/-- A world where the provider answers `reply` and every filesystem
step succeeds. -/
def allOkWorld (reply : List Char) : World :=
  ⟨ProviderOutcome.ok reply, CmdOutcome.out [], fun _ => WriteOutcome.ok⟩

/-- A world where the `mkdir` command fails but every file write
succeeds. -/
def mkdirFailWorld : World :=
  ⟨ProviderOutcome.ok scenarioAReply,
   CmdOutcome.failed "permission denied".data,
   fun _ => WriteOutcome.ok⟩

/-- A world where the stylesheet write fails and everything else
succeeds. -/
def styleFailWorld : World :=
  ⟨ProviderOutcome.ok scenarioAReply, CmdOutcome.out [],
   fun path =>
     if path = basePath ++ scenarioASlug ++ styleFile then
       WriteOutcome.failed "disk full".data
     else WriteOutcome.ok⟩

/-- A world where the provider call comes back with HTTP status 503. -/
def providerFailWorld : World :=
  ⟨ProviderOutcome.httpError 503 "\x7b\"error\":\"busy\"\x7d".data,
   CmdOutcome.out [], fun _ => WriteOutcome.ok⟩

/-- A world where the directory creation and every file write fail. -/
def allFailWorld : World :=
  ⟨ProviderOutcome.ok scenarioAReply,
   CmdOutcome.failed "permission denied".data,
   fun _ => WriteOutcome.failed "disk full".data⟩

/-- A reply whose script artifact is non-empty. -/
def scriptReply : List Char :=
  "```json\n\x7b\"html\":\"<p>ok</p>\",\"css\":\"\",\"js\":\"console.log(1)\"\x7d\n```".data

/-- The content of the well-formed block of `lateBlockRaw`. -/
def lateBlockContent : List Char :=
  "\x7b\"html\":\"a\",\"css\":\"b\",\"js\":\"c\"\x7d".data

/-- A reply that contains a spurious opening marker before a completely
well-formed fenced JSON block. -/
def lateBlockRaw : List Char :=
  "```json\nz ```json\n".data ++ lateBlockContent ++ "\n```".data

/-- A reply whose fenced block has empty content. -/
def emptyBlockRaw : List Char := "```json\n\n```".data

/-! Field-selection helpers for stating the extraction contract. -/

/-- The spec sentence `markup = html or ""` read on a parsed object
whose members are text: the member's string value when present, the
empty string otherwise. -/
def strFieldOr (fields : List (List Char × Json)) (key : List Char) :
    List Char :=
  match lookupLast fields key with
  | some (Json.str s) => s
  | _ => []

/-- The member is absent or holds a string value. -/
def strOrAbsent (fields : List (List Char × Json)) (key : List Char) : Bool :=
  match lookupLast fields key with
  | none => true
  | some (Json.str _) => true
  | _ => false

lemma jsOrEmpty_strField {fields : List (List Char × Json)} {key : List Char}
    (h : strOrAbsent fields key = true) :
    jsOrEmpty (lookupLast fields key) = Json.str (strFieldOr fields key) := by
  unfold strOrAbsent at h
  unfold strFieldOr jsOrEmpty
  cases hl : lookupLast fields key with
  | none => rfl
  | some v =>
    rw [hl] at h
    cases v with
    | str s => cases s with
      | nil => rfl
      | cons a t => rfl
    | null => cases h
    | bool b => cases h
    | num lx => cases h
    | arr es => cases h
    | obj fs => cases h

/-- C1 (amended): when the first occurrence of the opening marker is
followed by a closing marker and the captured region is non-empty and
parses as a JSON object whose `html`, `css`, `js` members (when present)
are strings, extraction succeeds and returns each member's value
verbatim, with the empty string for absent members. -/
theorem claim1_extract_success (raw g : List Char)
    (fields : List (List Char × Json))
    (hm : jsonBlockMatch raw = some g) (hg : g ≠ [])
    (hp : parseJson g = some (Json.obj fields))
    (hh : strOrAbsent fields "html".data = true)
    (hc : strOrAbsent fields "css".data = true)
    (hj : strOrAbsent fields "js".data = true) :
    extract raw = ExtractResult.ok
      (Json.str (strFieldOr fields "html".data))
      (Json.str (strFieldOr fields "css".data))
      (Json.str (strFieldOr fields "js".data)) := by
  simp only [extract, hm]
  rw [if_neg hg, hp]
  show ExtractResult.ok (jsOrEmpty (jsonGet (Json.obj fields) "html".data))
      (jsOrEmpty (jsonGet (Json.obj fields) "css".data))
      (jsOrEmpty (jsonGet (Json.obj fields) "js".data)) = _
  simp only [jsonGet]
  rw [jsOrEmpty_strField hh, jsOrEmpty_strField hc, jsOrEmpty_strField hj]

/-- A reply with a well-formed block in which `js` is absent and `css`
is present but empty. -/
def witness1Raw : List Char :=
  "```json\n\x7b\"html\":\"<p>x</p>\",\"css\":\"\"\x7d\n```".data

/-- Witness for C1: concrete extraction with one key absent and one key
empty, both resolving to the empty string. -/
theorem claim1_extract_success_witness :
    extract witness1Raw = ExtractResult.ok
      (Json.str "<p>x</p>".data) (Json.str []) (Json.str []) :=
  claim1_extract_success witness1Raw
    "\x7b\"html\":\"<p>x</p>\",\"css\":\"\"\x7d".data
    [("html".data, Json.str "<p>x</p>".data), ("css".data, Json.str [])]
    rfl (by decide) rfl rfl rfl rfl

/-- C1 counterexample: `lateBlockRaw` contains a completely well-formed
fenced JSON block with all three keys valid (shown by the first two
conjuncts), yet extraction fails with a parse error because a spurious
earlier opening marker makes the regex capture garbage. -/
theorem claim1_counterexample :
    containsSub (openMarker ++ (lateBlockContent ++ closeMarker)) lateBlockRaw = true
    ∧ parseJson lateBlockContent = some (Json.obj
        [("html".data, Json.str "a".data), ("css".data, Json.str "b".data),
         ("js".data, Json.str "c".data)])
    ∧ extract lateBlockRaw
        = ExtractResult.parseFailed (parseFailedMsg lateBlockRaw) :=
  ⟨by decide, rfl, rfl⟩

/-- C3 (amended): a reply without any fenced block fails with the
block-not-found error carrying the first-200-character excerpt; a reply
whose matched block content is non-empty but not valid JSON fails with
the parse error carrying the same excerpt; in both cases the handler
responds with the error object (status `error`). -/
theorem claim3_errors (raw : List Char) :
    (jsonBlockMatch raw = none →
      extract raw = ExtractResult.blockNotFound
        ("AI response format error: JSON block not found in model\x27s output. Raw content: ".data
          ++ (raw.take 200 ++ "...".data)))
    ∧ (∀ g, jsonBlockMatch raw = some g → g ≠ [] → parseJson g = none →
        extract raw = ExtractResult.parseFailed
          ("AI response format error: Could not parse JSON from model. Raw content: ".data
            ++ (raw.take 200 ++ "...".data)))
    ∧ (∀ (w : World) (p : List Char) (theme : Option (List Char))
        (m : List Char), p ≠ [] → w.provider = ProviderOutcome.ok raw →
        (extract raw = ExtractResult.blockNotFound m
          ∨ extract raw = ExtractResult.parseFailed m) →
        (handleGenerateWebsite w (some p) theme).1 = ⟨200, GenResult.error m⟩
        ∧ statusOf (handleGenerateWebsite w (some p) theme).1.body
            = "error".data) := by
  refine ⟨?_, ?_, ?_⟩
  · intro h
    simp only [extract, h]
    rfl
  · intro g hm hg hp
    simp only [extract, hm]
    rw [if_neg hg, hp]
    rfl
  · intro w p theme m hp hw hext
    have hgen : generateWebsiteWithDeepSeek w (mkUserProblem p theme)
        = (GenResult.error m, []) := by
      simp only [generateWebsiteWithDeepSeek, hw]
      rcases hext with h | h <;> rw [h]
    constructor
    · simp only [handleGenerateWebsite, if_neg hp, hgen]
    · simp only [handleGenerateWebsite, if_neg hp, hgen]
      rfl

/-- Witness for C3: both error branches exercised at concrete replies. -/
theorem claim3_errors_witness :
    extract "no fenced block here".data = ExtractResult.blockNotFound
      ("AI response format error: JSON block not found in model\x27s output. Raw content: ".data
        ++ ("no fenced block here".data.take 200 ++ "...".data))
    ∧ extract "```json\nnot json\n```".data = ExtractResult.parseFailed
      ("AI response format error: Could not parse JSON from model. Raw content: ".data
        ++ ("```json\nnot json\n```".data.take 200 ++ "...".data)) :=
  ⟨(claim3_errors "no fenced block here".data).1 rfl,
   (claim3_errors "```json\nnot json\n```".data).2.1
     "not json".data rfl (by decide) rfl⟩

/-- C3 counterexample: `emptyBlockRaw` has a fenced block (the matcher
finds it, with empty content), its content is not valid JSON, yet the
code reports the block-not-found error rather than the parse error,
because the empty captured group is falsy. -/
theorem claim3_counterexample :
    jsonBlockMatch emptyBlockRaw = some []
    ∧ parseJson [] = none
    ∧ extract emptyBlockRaw
        = ExtractResult.blockNotFound (blockNotFoundMsg emptyBlockRaw)
    ∧ (match extract emptyBlockRaw with
       | ExtractResult.parseFailed _ => False
       | _ => True) :=
  ⟨rfl, rfl, rfl, trivial⟩

/-- C2 counterexample: for the scenario-A request the folder is the
slug of the whole composed prompt, not `a-red-button-page`, and no
write to `generated_websites/a-red-button-page/index.html` is ever
attempted. -/
theorem claim2_counterexample :
    folderName (mkUserProblem scenarioAPrompt (some scenarioATheme))
      = scenarioASlug
    ∧ scenarioASlug ≠ "a-red-button-page".data
    ∧ attemptedWrite
        (handleGenerateWebsite (allOkWorld scenarioAReply)
          (some scenarioAPrompt) (some scenarioATheme)).2
        "./generated_websites/a-red-button-page/index.html".data = false :=
  ⟨rfl, by decide, rfl⟩

set_option maxHeartbeats 4000000 in
set_option maxRecDepth 100000 in
/-- C2 (amended): scenario A end to end.  The slug is derived from the
composed prompt, so the three artifacts go below the long slug
directory; `index.html` receives the html value, `style.css` the css
value, no `script.js` write happens (script is empty), and the handler
returns the success object carrying the three artifact values. -/
theorem claim2_scenarioA :
    handleGenerateWebsite (allOkWorld scenarioAReply) (some scenarioAPrompt)
        (some scenarioATheme)
      = (⟨200, GenResult.success successMsg (Json.str "<h1>Hi</h1>".data)
            (Json.str "h1\x7bcolor:red\x7d".data) (Json.str [])⟩,
         [FsEvent.cmd ("mkdir ./generated_websites/".data ++ scenarioASlug)
            (CmdOutcome.out []),
          FsEvent.write
            ("./generated_websites/".data ++ (scenarioASlug ++ "/index.html".data))
            (Json.str "<h1>Hi</h1>".data) WriteOutcome.ok,
          FsEvent.write
            ("./generated_websites/".data ++ (scenarioASlug ++ "/style.css".data))
            (Json.str "h1\x7bcolor:red\x7d".data) WriteOutcome.ok]) := by
  rfl

set_option maxHeartbeats 4000000 in
set_option maxRecDepth 100000 in
/-- C4 counterexample: with a failing `mkdir` the response is still the
success object and both artifact files are written anyway, refuting
that materialization stops with nothing written. -/
theorem claim4_counterexample :
    (handleGenerateWebsite mkdirFailWorld (some scenarioAPrompt)
        (some scenarioATheme)).1
      = ⟨200, GenResult.success successMsg (Json.str "<h1>Hi</h1>".data)
          (Json.str "h1\x7bcolor:red\x7d".data) (Json.str [])⟩
    ∧ fileWritten (handleGenerateWebsite mkdirFailWorld (some scenarioAPrompt)
        (some scenarioATheme)).2
        ("./generated_websites/".data ++ (scenarioASlug ++ "/index.html".data))
        = true
    ∧ fileWritten (handleGenerateWebsite mkdirFailWorld (some scenarioAPrompt)
        (some scenarioATheme)).2
        ("./generated_websites/".data ++ (scenarioASlug ++ "/style.css".data))
        = true :=
  ⟨rfl, rfl, rfl⟩

/-- C4 (amended): a failing `mkdir` command is captured by
`executeCommand` as a returned error string carrying the underlying
message; the caller discards it, so materialization does not stop: all
artifact writes are still attempted and the returned value is the
unchanged success object. -/
theorem claim4_mkdir_failure_ignored (w : World) (u m raw : List Char)
    (h c j : Json)
    (hprov : w.provider = ProviderOutcome.ok raw)
    (hex : extract raw = ExtractResult.ok h c j)
    (hmk : w.mkdirOutcome = CmdOutcome.failed m) :
    executeCommand (CmdOutcome.failed m) = "❌ Error: ".data ++ m
    ∧ (generateWebsiteWithDeepSeek w u).1 = GenResult.success successMsg h c j
    ∧ (generateWebsiteWithDeepSeek w u).2
        = FsEvent.cmd ("mkdir ".data ++ projectPath u) (CmdOutcome.failed m)
          :: FsEvent.write (projectPath u ++ indexFile) h
               (w.writeOutcome (projectPath u ++ indexFile))
          :: FsEvent.write (projectPath u ++ styleFile) c
               (w.writeOutcome (projectPath u ++ styleFile))
          :: (if jsTruthy j then
                [FsEvent.write (projectPath u ++ scriptFile) j
                   (w.writeOutcome (projectPath u ++ scriptFile))]
              else []) := by
  refine ⟨rfl, ?_, ?_⟩
  · simp only [generateWebsiteWithDeepSeek, hprov, hex]
  · simp only [generateWebsiteWithDeepSeek, hprov, hex, hmk]
    rfl

/-- Witness for C4 (amended) at the concrete mkdir-failure world. -/
theorem claim4_witness :
    (generateWebsiteWithDeepSeek mkdirFailWorld
        (mkUserProblem scenarioAPrompt (some scenarioATheme))).1
      = GenResult.success successMsg (Json.str "<h1>Hi</h1>".data)
          (Json.str "h1\x7bcolor:red\x7d".data) (Json.str []) :=
  (claim4_mkdir_failure_ignored mkdirFailWorld
      (mkUserProblem scenarioAPrompt (some scenarioATheme))
      "permission denied".data scenarioAReply
      (Json.str "<h1>Hi</h1>".data) (Json.str "h1\x7bcolor:red\x7d".data)
      (Json.str []) rfl rfl rfl).2.1

set_option maxHeartbeats 4000000 in
set_option maxRecDepth 100000 in
/-- C5: writes are independent.  If the stylesheet write fails while
the markup write succeeded, the markup file is on disk (a successful
write event exists for it), the style write was attempted (its event
carries the failure), any script write is still attempted, and the
string built by `writeFileContent` for the failure names exactly the
stylesheet path together with the underlying message. -/
theorem claim5_writes_independent (w : World) (p raw m : List Char)
    (theme : Option (List Char)) (h c j : Json)
    (hp : p ≠ []) (hprov : w.provider = ProviderOutcome.ok raw)
    (hex : extract raw = ExtractResult.ok h c j)
    (hidx : w.writeOutcome (projectPath (mkUserProblem p theme) ++ indexFile)
        = WriteOutcome.ok)
    (hsty : w.writeOutcome (projectPath (mkUserProblem p theme) ++ styleFile)
        = WriteOutcome.failed m) :
    fileWritten (handleGenerateWebsite w (some p) theme).2
        (projectPath (mkUserProblem p theme) ++ indexFile) = true
    ∧ FsEvent.write (projectPath (mkUserProblem p theme) ++ styleFile) c
        (WriteOutcome.failed m) ∈ (handleGenerateWebsite w (some p) theme).2
    ∧ (jsTruthy j = true →
        attemptedWrite (handleGenerateWebsite w (some p) theme).2
          (projectPath (mkUserProblem p theme) ++ scriptFile) = true)
    ∧ writeFileContent (projectPath (mkUserProblem p theme) ++ styleFile)
        (WriteOutcome.failed m)
        = "❌ Error writing to \"".data
          ++ ((projectPath (mkUserProblem p theme) ++ styleFile)
            ++ ("\": ".data ++ m)) := by
  have hgen : (handleGenerateWebsite w (some p) theme).2
      = (generateWebsiteWithDeepSeek w (mkUserProblem p theme)).2 := by
    simp only [handleGenerateWebsite, if_neg hp]
  refine ⟨?_, ?_, ?_, ?_⟩
  · rw [hgen]
    simp only [generateWebsiteWithDeepSeek, hprov, hex]
    simp only [fileWritten, List.any_append, List.any_cons, List.any_nil,
      hidx, beq_self_eq_true, Bool.or_true, Bool.true_or]
  · rw [hgen]
    simp only [generateWebsiteWithDeepSeek, hprov, hex, hsty]
    simp [List.mem_append, List.mem_cons]
  · intro hj
    rw [hgen]
    simp only [generateWebsiteWithDeepSeek, hprov, hex, hj]
    simp only [attemptedWrite, List.any_append, List.any_cons, List.any_nil,
      if_true, beq_self_eq_true, Bool.or_true, Bool.true_or]
  · simp [writeFileContent, List.append_assoc]

set_option maxHeartbeats 4000000 in
set_option maxRecDepth 100000 in
/-- Witness for C5 at the concrete stylesheet-failure world. -/
theorem claim5_witness :
    fileWritten (handleGenerateWebsite styleFailWorld (some scenarioAPrompt)
        (some scenarioATheme)).2
        (projectPath (mkUserProblem scenarioAPrompt (some scenarioATheme))
          ++ indexFile) = true
    ∧ FsEvent.write
        (projectPath (mkUserProblem scenarioAPrompt (some scenarioATheme))
          ++ styleFile)
        (Json.str "h1\x7bcolor:red\x7d".data)
        (WriteOutcome.failed "disk full".data)
        ∈ (handleGenerateWebsite styleFailWorld (some scenarioAPrompt)
            (some scenarioATheme)).2
    ∧ (jsTruthy (Json.str []) = true →
        attemptedWrite (handleGenerateWebsite styleFailWorld
            (some scenarioAPrompt) (some scenarioATheme)).2
          (projectPath (mkUserProblem scenarioAPrompt (some scenarioATheme))
            ++ scriptFile) = true)
    ∧ writeFileContent
        (projectPath (mkUserProblem scenarioAPrompt (some scenarioATheme))
          ++ styleFile)
        (WriteOutcome.failed "disk full".data)
        = "❌ Error writing to \"".data
          ++ ((projectPath (mkUserProblem scenarioAPrompt (some scenarioATheme))
              ++ styleFile)
            ++ ("\": ".data ++ "disk full".data)) :=
  claim5_writes_independent styleFailWorld scenarioAPrompt scenarioAReply
    "disk full".data (some scenarioATheme)
    (Json.str "<h1>Hi</h1>".data) (Json.str "h1\x7bcolor:red\x7d".data)
    (Json.str []) (by decide) rfl rfl rfl rfl

/-! Folder-name lemmas shared by C6 and C10. -/

lemma folderName_ne_nil (u : List Char) : folderName u ≠ [] := by
  unfold folderName
  by_cases hs : slugify u = []
  · rw [if_pos hs]
    decide
  · rw [if_neg hs]
    exact hs

lemma folderName_charset (u : List Char) :
    ∀ ch ∈ folderName u, isSlugChar ch = true ∨ ch = '-' := by
  intro ch hch
  unfold folderName at hch
  by_cases hs : slugify u = []
  · rw [if_pos hs] at hch
    have hall : ∀ x ∈ slugFallback, isSlugChar x = true ∨ x = '-' := by decide
    exact hall ch hch
  · rw [if_neg hs] at hch
    exact slugify_charset ch hch

lemma folderName_fixed {t : List Char} (h1 : slugify t = t) (h2 : t ≠ []) :
    folderName t = t := by
  unfold folderName
  rw [h1, if_neg h2]

lemma folderName_idem (u : List Char) :
    folderName (folderName u) = folderName u := by
  by_cases hs : slugify u = []
  · have hf : folderName u = slugFallback := by
      unfold folderName
      rw [if_pos hs]
    rw [hf]
    exact folderName_fixed (by decide) (by decide)
  · have hf : folderName u = slugify u := by
      unfold folderName
      rw [if_neg hs]
    rw [hf]
    exact folderName_fixed (slugify_idem u) hs

lemma slugify_nonalnum {s : List Char}
    (h : ∀ c ∈ s, isSlugChar (jsToLower c) = false) : slugify s = [] := by
  unfold slugify
  have hmap : ∀ c ∈ s.map jsToLower, isSlugChar c = false := by
    intro c hc
    rw [List.mem_map] at hc
    obtain ⟨a, ha, rfl⟩ := hc
    exact h a ha
  rw [collapseGo_nonslug _ hmap false]
  by_cases hs : s.map jsToLower = []
  · rw [if_neg]
    · rfl
    · simp [hs]
  · rw [if_pos (Or.inr hs)]
    decide

/-- C6: slug derivation is total (a function) and for every input the
folder name is non-empty, uses only `[a-z0-9]` and the dash separator,
is idempotent, falls back to `generated-website` when the input has no
alphanumeric character, and maps `My Cool Site!!` to `my-cool-site`. -/
theorem claim6_slug_total_idempotent (s : List Char) :
    folderName s ≠ []
    ∧ (∀ ch ∈ folderName s, isSlugChar ch = true ∨ ch = '-')
    ∧ folderName (folderName s) = folderName s
    ∧ ((∀ ch ∈ s, isSlugChar (jsToLower ch) = false) →
        folderName s = slugFallback)
    ∧ folderName "My Cool Site!!".data = "my-cool-site".data := by
  refine ⟨folderName_ne_nil s, folderName_charset s, folderName_idem s,
    ?_, by decide⟩
  intro h
  unfold folderName
  rw [if_pos (slugify_nonalnum h)]

/-- Witness for C6: the fallback branch at a concrete input without
alphanumeric characters. -/
theorem claim6_witness : folderName "!!!".data = slugFallback :=
  (claim6_slug_total_idempotent "!!!".data).2.2.2.1 (by decide)

/-- C7: a failed provider call short-circuits the request.  On a
non-success HTTP status the handler returns the error object whose
message embeds the `DeepSeek API error` marker and the status code, and
performs no filesystem effect; on a thrown provider error (network
failure or malformed reply) it likewise returns the error object and
performs no filesystem effect. -/
theorem claim7_provider_failure (w : World) (p : List Char)
    (theme : Option (List Char)) (hp : p ≠ []) :
    (∀ status body, w.provider = ProviderOutcome.httpError status body →
      handleGenerateWebsite w (some p) theme
        = (⟨200, GenResult.error (genFailureMsg (deepSeekErrorMsg status body))⟩, [])
      ∧ containsSub "DeepSeek API error".data
          (genFailureMsg (deepSeekErrorMsg status body)) = true
      ∧ containsSub (Nat.repr status).data
          (genFailureMsg (deepSeekErrorMsg status body)) = true
      ∧ statusOf (GenResult.error (genFailureMsg (deepSeekErrorMsg status body)))
          = "error".data)
    ∧ (∀ m, w.provider = ProviderOutcome.exn m →
        handleGenerateWebsite w (some p) theme
          = (⟨200, GenResult.error (genFailureMsg m)⟩, [])) := by
  constructor
  · intro status body hw
    refine ⟨?_, ?_, ?_, rfl⟩
    · simp only [handleGenerateWebsite, if_neg hp, generateWebsiteWithDeepSeek, hw]
    · have hsplit : "DeepSeek API error (".data
          = "DeepSeek API error".data ++ " (".data := by decide
      have hmsg : genFailureMsg (deepSeekErrorMsg status body)
          = "Error during AI generation: ".data
            ++ ("DeepSeek API error".data
              ++ (" (".data ++ ((Nat.repr status).data ++ ("): ".data ++ body)))) := by
        unfold genFailureMsg deepSeekErrorMsg
        rw [hsplit]
        simp [List.append_assoc]
      rw [hmsg]
      exact containsSub_prepend _ _ _ (containsSub_head _ _)
    · have hmsg2 : genFailureMsg (deepSeekErrorMsg status body)
          = "Error during AI generation: ".data
            ++ ("DeepSeek API error (".data
              ++ ((Nat.repr status).data ++ ("): ".data ++ body))) := by
        unfold genFailureMsg deepSeekErrorMsg
        simp [List.append_assoc]
      rw [hmsg2]
      exact containsSub_prepend _ _ _
        (containsSub_prepend _ _ _ (containsSub_head _ _))
  · intro m hw
    simp only [handleGenerateWebsite, if_neg hp, generateWebsiteWithDeepSeek, hw]

/-- Witness for C7 at a concrete 503 provider failure. -/
theorem claim7_witness :
    handleGenerateWebsite providerFailWorld (some scenarioAPrompt)
        (some scenarioATheme)
      = (⟨200, GenResult.error (genFailureMsg
          (deepSeekErrorMsg 503 "\x7b\"error\":\"busy\"\x7d".data))⟩, [])
    ∧ containsSub "DeepSeek API error".data
        (genFailureMsg (deepSeekErrorMsg 503 "\x7b\"error\":\"busy\"\x7d".data)) = true
    ∧ containsSub (Nat.repr 503).data
        (genFailureMsg (deepSeekErrorMsg 503 "\x7b\"error\":\"busy\"\x7d".data)) = true
    ∧ statusOf (GenResult.error (genFailureMsg
        (deepSeekErrorMsg 503 "\x7b\"error\":\"busy\"\x7d".data))) = "error".data :=
  (claim7_provider_failure providerFailWorld scenarioAPrompt
      (some scenarioATheme) (by decide)).1 503
    "\x7b\"error\":\"busy\"\x7d".data rfl

lemma append_beq_false {xs ys zs : List Char} (h : ys ≠ zs) :
    (xs ++ ys == xs ++ zs) = false := by
  rw [beq_eq_false_iff_ne]
  intro hEq
  exact h (List.append_cancel_left hEq)

/-- C8: after a successful extraction the markup and stylesheet files
are written unconditionally, and the script file write is attempted
exactly when the script artifact is truthy; for a string script
artifact that means exactly when it is non-empty. -/
theorem claim8_script_iff_nonempty (w : World) (p raw : List Char)
    (theme : Option (List Char)) (h c j : Json)
    (hp : p ≠ []) (hprov : w.provider = ProviderOutcome.ok raw)
    (hex : extract raw = ExtractResult.ok h c j) :
    attemptedWrite (handleGenerateWebsite w (some p) theme).2
        (projectPath (mkUserProblem p theme) ++ indexFile) = true
    ∧ attemptedWrite (handleGenerateWebsite w (some p) theme).2
        (projectPath (mkUserProblem p theme) ++ styleFile) = true
    ∧ attemptedWrite (handleGenerateWebsite w (some p) theme).2
        (projectPath (mkUserProblem p theme) ++ scriptFile) = jsTruthy j
    ∧ (∀ s, j = Json.str s →
        (attemptedWrite (handleGenerateWebsite w (some p) theme).2
            (projectPath (mkUserProblem p theme) ++ scriptFile) = true
          ↔ s ≠ [])) := by
  have hgen : (handleGenerateWebsite w (some p) theme).2
      = (generateWebsiteWithDeepSeek w (mkUserProblem p theme)).2 := by
    simp only [handleGenerateWebsite, if_neg hp]
  have hscript : attemptedWrite (handleGenerateWebsite w (some p) theme).2
      (projectPath (mkUserProblem p theme) ++ scriptFile) = jsTruthy j := by
    rw [hgen]
    simp only [generateWebsiteWithDeepSeek, hprov, hex]
    have hne1 : (projectPath (mkUserProblem p theme) ++ indexFile
        == projectPath (mkUserProblem p theme) ++ scriptFile) = false :=
      append_beq_false (by decide)
    have hne2 : (projectPath (mkUserProblem p theme) ++ styleFile
        == projectPath (mkUserProblem p theme) ++ scriptFile) = false :=
      append_beq_false (by decide)
    cases hj : jsTruthy j with
    | true =>
      simp only [attemptedWrite, hj, if_true, List.any_append, List.any_cons,
        List.any_nil, hne1, hne2, beq_self_eq_true, Bool.or_false,
        Bool.false_or, Bool.or_true]
    | false =>
      simp only [attemptedWrite, hj, if_false, Bool.false_eq_true,
        List.any_append, List.any_cons, List.any_nil, hne1, hne2,
        Bool.or_false, Bool.false_or]
  refine ⟨?_, ?_, hscript, ?_⟩
  · rw [hgen]
    simp only [generateWebsiteWithDeepSeek, hprov, hex]
    simp only [attemptedWrite, List.any_append, List.any_cons, List.any_nil,
      beq_self_eq_true, Bool.or_true, Bool.true_or]
  · rw [hgen]
    simp only [generateWebsiteWithDeepSeek, hprov, hex]
    simp only [attemptedWrite, List.any_append, List.any_cons, List.any_nil,
      beq_self_eq_true, Bool.or_true, Bool.true_or]
  · intro s hjs
    rw [hscript, hjs]
    show (jsTruthy (Json.str s) = true ↔ s ≠ [])
    cases s with
    | nil => simp [jsTruthy]
    | cons a t => simp [jsTruthy]

/-- Witness for C8 at a reply whose script artifact is non-empty. -/
theorem claim8_witness :
    attemptedWrite (handleGenerateWebsite (allOkWorld scriptReply)
        (some scenarioAPrompt) (some scenarioATheme)).2
        (projectPath (mkUserProblem scenarioAPrompt (some scenarioATheme))
          ++ indexFile) = true
    ∧ attemptedWrite (handleGenerateWebsite (allOkWorld scriptReply)
        (some scenarioAPrompt) (some scenarioATheme)).2
        (projectPath (mkUserProblem scenarioAPrompt (some scenarioATheme))
          ++ styleFile) = true
    ∧ attemptedWrite (handleGenerateWebsite (allOkWorld scriptReply)
        (some scenarioAPrompt) (some scenarioATheme)).2
        (projectPath (mkUserProblem scenarioAPrompt (some scenarioATheme))
          ++ scriptFile) = jsTruthy (Json.str "console.log(1)".data)
    ∧ (∀ s, Json.str "console.log(1)".data = Json.str s →
        (attemptedWrite (handleGenerateWebsite (allOkWorld scriptReply)
            (some scenarioAPrompt) (some scenarioATheme)).2
          (projectPath (mkUserProblem scenarioAPrompt (some scenarioATheme))
            ++ scriptFile) = true ↔ s ≠ [])) :=
  claim8_script_iff_nonempty (allOkWorld scriptReply) scenarioAPrompt
    scriptReply (some scenarioATheme)
    (Json.str "<p>ok</p>".data) (Json.str []) (Json.str "console.log(1)".data)
    (by decide) rfl rfl

/-- C9: whenever extraction succeeds the handler answers 200 with the
success object carrying the three artifact values, for every world —
in particular for arbitrary directory-creation and file-write
failures, whose error strings are produced inside `executeCommand` and
`writeFileContent` and discarded by the caller. -/
theorem claim9_fs_errors_invisible (w : World) (p raw : List Char)
    (theme : Option (List Char)) (h c j : Json)
    (hp : p ≠ []) (hprov : w.provider = ProviderOutcome.ok raw)
    (hex : extract raw = ExtractResult.ok h c j) :
    (handleGenerateWebsite w (some p) theme).1
      = ⟨200, GenResult.success successMsg h c j⟩
    ∧ statusOf (handleGenerateWebsite w (some p) theme).1.body
      = "success".data := by
  have h1 : (handleGenerateWebsite w (some p) theme).1
      = ⟨200, GenResult.success successMsg h c j⟩ := by
    simp only [handleGenerateWebsite, if_neg hp, generateWebsiteWithDeepSeek,
      hprov, hex]
  refine ⟨h1, ?_⟩
  rw [h1]
  rfl

/-- Witness for C9 at the world where the directory creation and every
file write fail: the response is still the success object. -/
theorem claim9_witness :
    (handleGenerateWebsite allFailWorld (some scenarioAPrompt)
        (some scenarioATheme)).1
      = ⟨200, GenResult.success successMsg (Json.str "<h1>Hi</h1>".data)
          (Json.str "h1\x7bcolor:red\x7d".data) (Json.str [])⟩
    ∧ statusOf (handleGenerateWebsite allFailWorld (some scenarioAPrompt)
        (some scenarioATheme)).1.body = "success".data :=
  claim9_fs_errors_invisible allFailWorld scenarioAPrompt scenarioAReply
    (some scenarioATheme) (Json.str "<h1>Hi</h1>".data)
    (Json.str "h1\x7bcolor:red\x7d".data) (Json.str [])
    (by decide) rfl rfl

/-- C10: for every request the folder name is non-empty, contains only
`[a-z0-9]` and dashes (hence never `/` or `.`), the project path is
exactly the base directory followed by the folder name, and every
filesystem effect of the request is either the `mkdir` of that path or
a write to one of the three fixed filenames inside it. -/
theorem claim10_path_confined (w : World) (p : List Char)
    (theme : Option (List Char)) :
    folderName (mkUserProblem p theme) ≠ []
    ∧ (∀ ch ∈ folderName (mkUserProblem p theme),
        (isSlugChar ch = true ∨ ch = '-') ∧ ch ≠ '/' ∧ ch ≠ '.')
    ∧ projectPath (mkUserProblem p theme)
        = "./generated_websites/".data ++ folderName (mkUserProblem p theme)
    ∧ (∀ e ∈ (handleGenerateWebsite w (some p) theme).2,
        e = FsEvent.cmd ("mkdir ".data ++ projectPath (mkUserProblem p theme))
              w.mkdirOutcome
        ∨ ∃ content outcome fn,
            (fn = indexFile ∨ fn = styleFile ∨ fn = scriptFile)
            ∧ e = FsEvent.write (projectPath (mkUserProblem p theme) ++ fn)
                content outcome) := by
  refine ⟨folderName_ne_nil _, ?_, rfl, ?_⟩
  · intro ch hch
    have hcs := folderName_charset _ ch hch
    refine ⟨hcs, ?_, ?_⟩
    · rcases hcs with hs | rfl
      · intro heq
        subst heq
        revert hs
        decide
      · decide
    · rcases hcs with hs | rfl
      · intro heq
        subst heq
        revert hs
        decide
      · decide
  · intro e he
    by_cases hp : p = []
    · subst hp
      simp [handleGenerateWebsite] at he
    · simp only [handleGenerateWebsite, if_neg hp] at he
      cases hpr : w.provider with
      | httpError status body =>
        simp only [generateWebsiteWithDeepSeek, hpr] at he
        simp at he
      | exn m =>
        simp only [generateWebsiteWithDeepSeek, hpr] at he
        simp at he
      | ok raw =>
        simp only [generateWebsiteWithDeepSeek, hpr] at he
        cases hext : extract raw with
        | blockNotFound m =>
          rw [hext] at he
          simp at he
        | parseFailed m =>
          rw [hext] at he
          simp at he
        | ok hh cc jj =>
          rw [hext] at he
          simp only [List.mem_append, List.mem_cons, List.not_mem_nil,
            or_false] at he
          rcases he with (rfl | rfl | rfl) | hscript
          · exact Or.inl rfl
          · exact Or.inr ⟨hh, _, indexFile, Or.inl rfl, rfl⟩
          · exact Or.inr ⟨cc, _, styleFile, Or.inr (Or.inl rfl), rfl⟩
          · by_cases hj : jsTruthy jj = true
            · rw [if_pos hj] at hscript
              simp only [List.mem_cons, List.not_mem_nil, or_false] at hscript
              subst hscript
              exact Or.inr ⟨jj, _, scriptFile, Or.inr (Or.inr rfl), rfl⟩
            · rw [if_neg hj] at hscript
              simp at hscript

/-- Witness for C10: the membership hypothesis discharged at the
concrete `mkdir` event of the scenario-A request. -/
theorem claim10_witness :
    FsEvent.cmd ("mkdir ".data
        ++ projectPath (mkUserProblem scenarioAPrompt (some scenarioATheme)))
        (allOkWorld scenarioAReply).mkdirOutcome
      = FsEvent.cmd ("mkdir ".data
          ++ projectPath (mkUserProblem scenarioAPrompt (some scenarioATheme)))
          (allOkWorld scenarioAReply).mkdirOutcome
    ∨ ∃ content outcome fn,
        (fn = indexFile ∨ fn = styleFile ∨ fn = scriptFile)
        ∧ FsEvent.cmd ("mkdir ".data
            ++ projectPath (mkUserProblem scenarioAPrompt (some scenarioATheme)))
            (allOkWorld scenarioAReply).mkdirOutcome
          = FsEvent.write
              (projectPath (mkUserProblem scenarioAPrompt (some scenarioATheme))
                ++ fn) content outcome :=
  (claim10_path_confined (allOkWorld scenarioAReply) scenarioAPrompt
      (some scenarioATheme)).2.2.2 _
    (by
      have hevs : (handleGenerateWebsite (allOkWorld scenarioAReply)
          (some scenarioAPrompt) (some scenarioATheme)).2
          = FsEvent.cmd ("mkdir ".data
              ++ projectPath (mkUserProblem scenarioAPrompt (some scenarioATheme)))
              (allOkWorld scenarioAReply).mkdirOutcome
            :: FsEvent.write (projectPath (mkUserProblem scenarioAPrompt
                (some scenarioATheme)) ++ indexFile)
                (Json.str "<h1>Hi</h1>".data) WriteOutcome.ok
            :: [FsEvent.write (projectPath (mkUserProblem scenarioAPrompt
                (some scenarioATheme)) ++ styleFile)
                (Json.str "h1\x7bcolor:red\x7d".data) WriteOutcome.ok] := rfl
      rw [hevs]
      exact List.mem_cons_self _ _)

end Orbit
